import Mathlib

/-!
# Verification of the AMP story resizable-box gesture controller

Shallow embedding of `assets/src/components/resizable-box/index.js`:
the module-level gesture state (lines 25-31) and the three gesture
handlers `onResizeStop` (73-92), `onResizeStart` (93-120) and
`onResize` (121-171).

Numbers are modelled as rationals.  DOM elements are modelled by ids
(`Nat`) mapped to their mutable inline style and to their read-only
rendered (client) size.  The functions imported from
`stories-editor/helpers` are not part of the sources, so they are
abstracted as a structure of pure functions (the spec describes them
as pure coordinate transforms); every theorem quantifies over that
structure.
-/

namespace AmpResizableBox

/-- A text content element, read through the read-only properties
`scrollWidth` / `scrollHeight` (the content's natural size). -/
structure TextElem where
  scrollWidth : ℚ
  scrollHeight : ℚ
deriving DecidableEq

/-- The mutable inline style of an element: `style.top` / `style.left`
hold percentage values (the code writes strings of the shape "<q>%"),
`style.width` / `style.height` hold pixel values. -/
structure Style where
  top : ℚ
  left : ℚ
  width : ℚ
  height : ℚ
deriving DecidableEq

/-- The read-only rendered size of an element
(`clientWidth` / `clientHeight`). -/
structure Client where
  clientWidth : ℚ
  clientHeight : ℚ
deriving DecidableEq

/-- The DOM fragment visible to the handlers: per element id, its
mutable inline style and its rendered size.  Layout recomputation is
outside the model, so `client` is read-only. -/
structure Dom where
  style : Nat → Style
  client : Nat → Client

/-- The drag direction handed to the handlers; the component only
enables the right and bottom handles (source lines 66-72). -/
structure Direction where
  right : Bool
  bottom : Bool
deriving DecidableEq

/-- The result of `getResizedWidthAndHeight`. -/
structure Delta where
  deltaW : ℚ
  deltaH : ℚ
deriving DecidableEq

/-- The result of `getBlockPositioning`. -/
structure Pos where
  left : ℚ
  top : ℚ
deriving DecidableEq

/-- Axis selector of the unit-conversion helpers. -/
inductive Axis
  | x
  | y
deriving DecidableEq

/-- Modelled from the spec: the helper module
`stories-editor/helpers` is not under the sources; §4.1-4.3 of the
spec describe `getResizedWidthAndHeight` (ResizeDeltaCalculator),
`getBlockPositioning` (RotationGeometry), the pixel/percentage unit
converters and `getRadianFromDeg` as pure functions of their
arguments.  They are abstracted as an arbitrary structure of pure
functions; theorems about the controller hold for every
implementation. -/
structure Helpers where
  getResizedWidthAndHeight : ℚ → ℚ → ℚ → ℚ → ℚ → Direction → Delta
  getPercentageFromPixels : Axis → ℚ → ℚ
  getPixelsFromPercentage : Axis → ℚ → ℚ
  getBlockPositioning : ℚ → ℚ → ℚ → Pos
  getRadianFromDeg : ℚ → ℚ

/-- The props the handlers read (source lines 33-53). -/
structure Props where
  angle : ℚ
  blockName : String
  ampFitText : Bool
  minWidth : ℚ
  minHeight : ℚ
  width : ℚ
  height : ℚ

/-- Modelled from the spec: `BLOCKS_WITH_TEXT_SETTINGS` comes from
`stories-editor/constants`, which is not under the sources.  §9 of the
spec gives the closed enumeration of text-bearing kinds (plain text,
post-title, post-author, post-date), matching the four switch cases of
`onResizeStart` (source lines 103-116). -/
def BLOCKS_WITH_TEXT_SETTINGS : List String :=
  ["amp/amp-story-text", "amp/amp-story-post-title",
   "amp/amp-story-post-author", "amp/amp-story-post-date"]

/-- `const isImage = 'core/image' === blockName` (source line 52). -/
def isImage (p : Props) : Bool :=
  p.blockName == "core/image"

/-- `const isBlockWithText = BLOCKS_WITH_TEXT_SETTINGS.includes( blockName )`
(source line 53). -/
def isBlockWithText (p : Props) : Bool :=
  BLOCKS_WITH_TEXT_SETTINGS.contains p.blockName

/-- The module-level mutable variables (source lines 25-31).
`blockElementTop` / `blockElementLeft` cache the percentage value of
the block element's `style.top` / `style.left` strings captured at
gesture start. -/
structure Mod where
  lastSeenX : ℚ
  lastSeenY : ℚ
  blockElement : Option Nat
  blockElementTop : ℚ
  blockElementLeft : ℚ
  imageWrapper : Option Nat
  textElement : Option TextElem

/-- Initial module state: `lastSeenX = 0, lastSeenY = 0,
blockElement = null`, the remaining variables undefined (modelled as
`0` / `none`; the caller contract of §5 never reads them before a
gesture start). -/
def initialMod : Mod :=
  { lastSeenX := 0
    lastSeenY := 0
    blockElement := none
    blockElementTop := 0
    blockElementLeft := 0
    imageWrapper := none
    textElement := none }

/-- A gesture-start event, carrying the pointer position and the
already-resolved element handles (`element.closest('.wp-block')` and
the two `querySelector` look-ups of source lines 96-116; per spec §6
the DOM resolution is the host's job). -/
structure StartEvent where
  clientX : ℚ
  clientY : ℚ
  blockElemId : Nat
  imageWrapperId : Option Nat
  textElemFound : Option TextElem

/-- A move / stop event: pointer position, the resizable container
element handed to the handler, and the drag direction. -/
structure MoveEvent where
  clientX : ℚ
  clientY : ℚ
  elemId : Nat
  direction : Direction

/-- JavaScript `parseInt(String(q), 10)`: truncation toward zero
(also the value of `parseInt` on a "<q>%" style string, which stops at
the first non-numeric character). -/
def jsTrunc (q : ℚ) : ℤ :=
  if 0 ≤ q then ⌊q⌋ else ⌈q⌉

/-- Write `style.top` / `style.left` of element `i`. -/
def Dom.setTopLeft (dom : Dom) (i : Nat) (t l : ℚ) : Dom :=
  { dom with
    style := fun j => if j = i then { dom.style j with top := t, left := l } else dom.style j }

/-- Write `style.width` / `style.height` of element `i`. -/
def Dom.setSize (dom : Dom) (i : Nat) (w h : ℚ) : Dom :=
  { dom with
    style := fun j => if j = i then { dom.style j with width := w, height := h } else dom.style j }

/-- The block element id the handlers dereference; the caller contract
(§5) guarantees a gesture start has set it before any move/stop. -/
def blockId (m : Mod) : Nat :=
  m.blockElement.getD 0

/-- The shared delta computation
`getResizedWidthAndHeight( event, angle, lastSeenX, lastSeenY, direction )`
invoked identically by `onResize` (line 122) and `onResizeStop`
(line 74). -/
def gestureDelta (H : Helpers) (p : Props) (cX cY : ℚ) (m : Mod) (dir : Direction) : Delta :=
  H.getResizedWidthAndHeight cX cY p.angle m.lastSeenX m.lastSeenY dir

/-- `onResizeStart` (source lines 93-120): caches the pointer
position, the block element and its style top/left, and — depending on
the block kind — the image wrapper and the text element; the four
switch cases coincide with membership in `BLOCKS_WITH_TEXT_SETTINGS`. -/
def onResizeStart (p : Props) (ev : StartEvent) (m : Mod) (dom : Dom) : Mod :=
  let m1 :=
    { m with
      lastSeenX := ev.clientX
      lastSeenY := ev.clientY
      blockElement := some ev.blockElemId
      blockElementTop := (dom.style ev.blockElemId).top
      blockElementLeft := (dom.style ev.blockElemId).left }
  let m2 := if isImage p then { m1 with imageWrapper := ev.imageWrapperId } else m1
  if isBlockWithText p && !p.ampFitText then { m2 with textElement := ev.textElemFound } else m2

/-- `width = blockElement.clientWidth; height = blockElement.clientHeight`
when the block is an image with no stored size
(`isImage && ! width && ! height`, source lines 124-128).
`client` is the rendered-size table of the DOM. -/
def whNorm (p : Props) (m : Mod) (client : Nat → Client) (wh : ℚ × ℚ) : ℚ × ℚ :=
  if isImage p && decide (wh.1 = 0) && decide (wh.2 = 0) then
    ((client (blockId m)).clientWidth, (client (blockId m)).clientHeight)
  else wh

/-- The minimum-size clamp of `onResize` (source lines 129-130):
`minWidth <= width + deltaW ? width + deltaW : minWidth`, likewise for
the height.  Applied to the (already normalised) baseline `wh`. -/
def appliedSize (H : Helpers) (p : Props) (ev : MoveEvent) (m : Mod) (wh : ℚ × ℚ) : ℚ × ℚ :=
  let d := gestureDelta H p ev.clientX ev.clientY m ev.direction
  (if p.minWidth ≤ wh.1 + d.deltaW then wh.1 + d.deltaW else p.minWidth,
   if p.minHeight ≤ wh.2 + d.deltaH then wh.2 + d.deltaH else p.minHeight)

/-- The position update of `onResize` for a rotated element (source
lines 132-161), returning the percentage pair (top, left) written to
the block element's style.  `wh` is the normalised baseline.  Source
line 152 also divides the never-initialised, never-read `diff.right`
field; it has no observable effect and is omitted. -/
def movePosition (H : Helpers) (p : Props) (ev : MoveEvent) (m : Mod) (wh : ℚ × ℚ) : ℚ × ℚ :=
  let a := appliedSize H p ev m wh
  let radianAngle := H.getRadianFromDeg p.angle
  let initialPosition := H.getBlockPositioning wh.1 wh.2 radianAngle
  let resizedPosition := H.getBlockPositioning a.1 a.2 radianAngle
  let diffLeft0 := resizedPosition.left - initialPosition.left
  let diffTop := resizedPosition.top - initialPosition.top
  let originalLeft := H.getPixelsFromPercentage Axis.x ((jsTrunc m.blockElementLeft : ℤ) : ℚ)
  let originalTop := H.getPixelsFromPercentage Axis.y ((jsTrunc m.blockElementTop : ℤ) : ℚ)
  let diffLeft := if a.2 < 60 then diffLeft0 / (60 / a.2) else diffLeft0
  (H.getPercentageFromPixels Axis.y (originalTop + diffTop),
   H.getPercentageFromPixels Axis.x (originalLeft - diffLeft))

/-- `onResize` (source lines 121-171): computes the delta, normalises
the baseline for the inserted-from-URL image case, applies the
minimum-size clamp, writes the corrected position when the angle is
nonzero, and writes the preview size to the container element and (for
images) to the image wrapper.  Returns the updated closure variables
`(width, height)` and the updated DOM. -/
def onResize (H : Helpers) (p : Props) (ev : MoveEvent) (m : Mod) (wh : ℚ × ℚ) (dom : Dom) :
    (ℚ × ℚ) × Dom :=
  let wh1 := whNorm p m dom.client wh
  let a := appliedSize H p ev m wh1
  let dom1 :=
    if p.angle ≠ 0 then
      dom.setTopLeft (blockId m) (movePosition H p ev m wh1).1 (movePosition H p ev m wh1).2
    else dom
  let dom2 := dom1.setSize ev.elemId a.1 a.2
  let dom3 :=
    match m.imageWrapper with
    | some iw => if isImage p then dom2.setSize iw a.1 a.2 else dom2
    | none => dom2
  (wh1, dom3)

/-- The committed result emitted to the caller at gesture end
(source lines 86-91). -/
structure Commit where
  width : ℤ
  height : ℤ
  positionTop : ℤ
  positionLeft : ℤ
deriving DecidableEq

/-- `onResizeStop` (source lines 73-92): recomputes the delta with the
same `getResizedWidthAndHeight` call as `onResize`, applies the
text-overflow veto (`appliedWidth < textElement.scrollWidth ||
appliedHeight < textElement.scrollHeight` returns without emitting),
and otherwise emits the `parseInt`-truncated committed result, reading
the position from the block element's live style. -/
def onResizeStop (H : Helpers) (p : Props) (ev : MoveEvent) (m : Mod) (wh : ℚ × ℚ) (dom : Dom) :
    Option Commit :=
  let d := gestureDelta H p ev.clientX ev.clientY m ev.direction
  let appliedWidth := wh.1 + d.deltaW
  let appliedHeight := wh.2 + d.deltaH
  let commit : Commit :=
    { width := jsTrunc appliedWidth
      height := jsTrunc appliedHeight
      positionTop := jsTrunc ((dom.style (blockId m)).top)
      positionLeft := jsTrunc ((dom.style (blockId m)).left) }
  match m.textElement with
  | some te =>
    if appliedWidth < te.scrollWidth ∨ appliedHeight < te.scrollHeight then none
    else some commit
  | none => some commit

/-- A sequence of move events of one gesture, folded over the closure
variables and the DOM. -/
def runMoves (H : Helpers) (p : Props) (m : Mod) (evs : List MoveEvent) (s : (ℚ × ℚ) × Dom) :
    (ℚ × ℚ) × Dom :=
  evs.foldl (fun s ev => onResize H p ev m s.1 s.2) s

/-! ## Basic lemmas about the DOM updates -/

@[simp]
theorem Dom.client_setSize (dom : Dom) (i : Nat) (w h : ℚ) :
    (dom.setSize i w h).client = dom.client := rfl

@[simp]
theorem Dom.client_setTopLeft (dom : Dom) (i : Nat) (t l : ℚ) :
    (dom.setTopLeft i t l).client = dom.client := rfl

@[simp]
theorem Dom.top_setSize (dom : Dom) (i : Nat) (w h : ℚ) (j : Nat) :
    ((dom.setSize i w h).style j).top = (dom.style j).top := by
  simp only [Dom.setSize]
  split <;> rfl

@[simp]
theorem Dom.left_setSize (dom : Dom) (i : Nat) (w h : ℚ) (j : Nat) :
    ((dom.setSize i w h).style j).left = (dom.style j).left := by
  simp only [Dom.setSize]
  split <;> rfl

@[simp]
theorem Dom.width_setSize (dom : Dom) (i : Nat) (w h : ℚ) (j : Nat) :
    ((dom.setSize i w h).style j).width = if j = i then w else (dom.style j).width := by
  simp only [Dom.setSize]
  split <;> rfl

@[simp]
theorem Dom.height_setSize (dom : Dom) (i : Nat) (w h : ℚ) (j : Nat) :
    ((dom.setSize i w h).style j).height = if j = i then h else (dom.style j).height := by
  simp only [Dom.setSize]
  split <;> rfl

@[simp]
theorem Dom.top_setTopLeft (dom : Dom) (i : Nat) (t l : ℚ) (j : Nat) :
    ((dom.setTopLeft i t l).style j).top = if j = i then t else (dom.style j).top := by
  simp only [Dom.setTopLeft]
  split <;> rfl

@[simp]
theorem Dom.left_setTopLeft (dom : Dom) (i : Nat) (t l : ℚ) (j : Nat) :
    ((dom.setTopLeft i t l).style j).left = if j = i then l else (dom.style j).left := by
  simp only [Dom.setTopLeft]
  split <;> rfl

@[simp]
theorem Dom.width_setTopLeft (dom : Dom) (i : Nat) (t l : ℚ) (j : Nat) :
    ((dom.setTopLeft i t l).style j).width = (dom.style j).width := by
  simp only [Dom.setTopLeft]
  split <;> rfl

@[simp]
theorem Dom.height_setTopLeft (dom : Dom) (i : Nat) (t l : ℚ) (j : Nat) :
    ((dom.setTopLeft i t l).style j).height = (dom.style j).height := by
  simp only [Dom.setTopLeft]
  split <;> rfl

/-! ## Extraction lemmas for `onResize` -/

/-- The closure variables returned by `onResize` are the normalised
baseline. -/
theorem onResize_fst (H : Helpers) (p : Props) (ev : MoveEvent) (m : Mod) (wh : ℚ × ℚ)
    (dom : Dom) : (onResize H p ev m wh dom).1 = whNorm p m dom.client wh := rfl

/-- `onResize` never changes rendered (client) sizes. -/
theorem onResize_client (H : Helpers) (p : Props) (ev : MoveEvent) (m : Mod) (wh : ℚ × ℚ)
    (dom : Dom) : ((onResize H p ev m wh dom).2).client = dom.client := by
  unfold onResize
  dsimp only
  repeat' split
  all_goals simp

/-- The preview size written by `onResize` to the container element
(the image wrapper, when also written, receives the same size, so no
aliasing hypothesis is needed). -/
theorem onResize_size (H : Helpers) (p : Props) (ev : MoveEvent) (m : Mod) (wh : ℚ × ℚ)
    (dom : Dom) :
    (((onResize H p ev m wh dom).2).style ev.elemId).width
        = (appliedSize H p ev m (whNorm p m dom.client wh)).1 ∧
      (((onResize H p ev m wh dom).2).style ev.elemId).height
        = (appliedSize H p ev m (whNorm p m dom.client wh)).2 := by
  unfold onResize
  dsimp only
  repeat' split
  all_goals simp

/-- When the angle is nonzero, `onResize` writes the corrected
position of `movePosition` to the block element's style. -/
theorem onResize_pos (H : Helpers) (p : Props) (ev : MoveEvent) (m : Mod) (wh : ℚ × ℚ)
    (dom : Dom) (h : p.angle ≠ 0) :
    (((onResize H p ev m wh dom).2).style (blockId m)).top
        = (movePosition H p ev m (whNorm p m dom.client wh)).1 ∧
      (((onResize H p ev m wh dom).2).style (blockId m)).left
        = (movePosition H p ev m (whNorm p m dom.client wh)).2 := by
  unfold onResize
  dsimp only
  repeat' split
  all_goals simp_all

/-- When the angle is zero, `onResize` leaves every element's
`style.top` / `style.left` untouched. -/
theorem onResize_pos_zero (H : Helpers) (p : Props) (ev : MoveEvent) (m : Mod) (wh : ℚ × ℚ)
    (dom : Dom) (h : p.angle = 0) (j : Nat) :
    (((onResize H p ev m wh dom).2).style j).top = (dom.style j).top ∧
      (((onResize H p ev m wh dom).2).style j).left = (dom.style j).left := by
  unfold onResize
  dsimp only
  repeat' split
  all_goals simp_all

/-- `whNorm` is idempotent (for a fixed rendered-size table). -/
theorem whNorm_idem (p : Props) (m : Mod) (c : Nat → Client) (wh : ℚ × ℚ) :
    whNorm p m c (whNorm p m c wh) = whNorm p m c wh := by
  unfold whNorm
  repeat' split
  all_goals simp_all

/-! ## Lemmas about move sequences -/

theorem runMoves_nil (H : Helpers) (p : Props) (m : Mod) (s : (ℚ × ℚ) × Dom) :
    runMoves H p m [] s = s := rfl

theorem runMoves_cons (H : Helpers) (p : Props) (m : Mod) (e : MoveEvent) (t : List MoveEvent)
    (s : (ℚ × ℚ) × Dom) :
    runMoves H p m (e :: t) s = runMoves H p m t (onResize H p e m s.1 s.2) := rfl

theorem runMoves_append (H : Helpers) (p : Props) (m : Mod) (l1 l2 : List MoveEvent)
    (s : (ℚ × ℚ) × Dom) :
    runMoves H p m (l1 ++ l2) s = runMoves H p m l2 (runMoves H p m l1 s) := by
  simp [runMoves, List.foldl_append]

theorem runMoves_client (H : Helpers) (p : Props) (m : Mod) (evs : List MoveEvent) :
    ∀ s : (ℚ × ℚ) × Dom, ((runMoves H p m evs s).2).client = s.2.client := by
  induction evs with
  | nil => intro s; rfl
  | cons e t ih =>
    intro s
    rw [runMoves_cons, ih]
    exact onResize_client H p e m s.1 s.2

/-- The closure variables after any move sequence normalise to the
same value as the gesture-start baseline. -/
theorem runMoves_whNorm (H : Helpers) (p : Props) (m : Mod) (evs : List MoveEvent) :
    ∀ s : (ℚ × ℚ) × Dom,
      whNorm p m s.2.client ((runMoves H p m evs s).1) = whNorm p m s.2.client s.1 := by
  induction evs with
  | nil => intro s; rfl
  | cons e t ih =>
    intro s
    rw [runMoves_cons]
    have hc : (onResize H p e m s.1 s.2).2.client = s.2.client := onResize_client H p e m s.1 s.2
    have := ih (onResize H p e m s.1 s.2)
    rw [hc] at this
    rw [this, onResize_fst, whNorm_idem]

/-! ## Extraction lemmas for `onResizeStop` and the clamp -/

/-- Any committed result has exactly the shape built at source lines
86-91: truncated applied size, position truncated from the block
element's current style. -/
theorem onResizeStop_some (H : Helpers) (p : Props) (ev : MoveEvent) (m : Mod) (wh : ℚ × ℚ)
    (dom : Dom) (c : Commit) (h : onResizeStop H p ev m wh dom = some c) :
    c = { width := jsTrunc (wh.1 + (gestureDelta H p ev.clientX ev.clientY m ev.direction).deltaW)
          height := jsTrunc (wh.2 + (gestureDelta H p ev.clientX ev.clientY m ev.direction).deltaH)
          positionTop := jsTrunc ((dom.style (blockId m)).top)
          positionLeft := jsTrunc ((dom.style (blockId m)).left) } := by
  unfold onResizeStop at h
  dsimp only at h
  repeat' split at h
  all_goals first
    | exact (Option.some.inj h).symm
    | exact absurd h (by simp)

/-- The gesture-end overflow veto: a present text element whose
natural size exceeds the applied size suppresses the commit. -/
theorem onResizeStop_veto (H : Helpers) (p : Props) (ev : MoveEvent) (m : Mod) (wh : ℚ × ℚ)
    (dom : Dom) (te : TextElem) (hte : m.textElement = some te)
    (hv : wh.1 + (gestureDelta H p ev.clientX ev.clientY m ev.direction).deltaW < te.scrollWidth ∨
      wh.2 + (gestureDelta H p ev.clientX ev.clientY m ev.direction).deltaH < te.scrollHeight) :
    onResizeStop H p ev m wh dom = none := by
  unfold onResizeStop
  dsimp only
  rw [hte]
  exact if_pos hv

/-- Without a triggered veto, the commit is emitted. -/
theorem onResizeStop_commits (H : Helpers) (p : Props) (ev : MoveEvent) (m : Mod) (wh : ℚ × ℚ)
    (dom : Dom)
    (hok : ∀ te, m.textElement = some te →
      ¬(wh.1 + (gestureDelta H p ev.clientX ev.clientY m ev.direction).deltaW < te.scrollWidth ∨
        wh.2 + (gestureDelta H p ev.clientX ev.clientY m ev.direction).deltaH < te.scrollHeight)) :
    onResizeStop H p ev m wh dom
      = some
        { width := jsTrunc (wh.1 + (gestureDelta H p ev.clientX ev.clientY m ev.direction).deltaW)
          height := jsTrunc (wh.2 + (gestureDelta H p ev.clientX ev.clientY m ev.direction).deltaH)
          positionTop := jsTrunc ((dom.style (blockId m)).top)
          positionLeft := jsTrunc ((dom.style (blockId m)).left) } := by
  unfold onResizeStop
  dsimp only
  cases hte : m.textElement with
  | none => rfl
  | some te => exact if_neg (hok te hte)

/-- The conditional of source lines 129-130 is the maximum with the
configured minimum size. -/
theorem appliedSize_eq_max (H : Helpers) (p : Props) (ev : MoveEvent) (m : Mod) (wh : ℚ × ℚ) :
    appliedSize H p ev m wh
      = (max (wh.1 + (gestureDelta H p ev.clientX ev.clientY m ev.direction).deltaW) p.minWidth,
         max (wh.2 + (gestureDelta H p ev.clientX ev.clientY m ev.direction).deltaH) p.minHeight) := by
  unfold appliedSize
  dsimp only
  refine Prod.ext ?_ ?_ <;> dsimp only <;> split
  · exact (max_eq_left ‹_›).symm
  · exact (max_eq_right (le_of_not_le ‹_›)).symm
  · exact (max_eq_left ‹_›).symm
  · exact (max_eq_right (le_of_not_le ‹_›)).symm

/-! ## Concrete fixtures for closed statements

A concrete `Helpers` instance and concrete gestures, used only to
evaluate counterexamples and witnesses. -/

/-- A concrete `Helpers` instance.  The delta calculator passes the
raw pointer delta through along the enabled edges — exactly the spec's
§4.3 computation at angle 0, the angle used by every concrete gesture
run that depends on delta values; the unit converters use the 800×600
container of the spec's §8 scenarios; the rotation-dependent helpers
are rational stand-ins (theorems quantify over all `Helpers`, so no
closed statement depends on their trigonometric accuracy). -/
def sampleHelpers : Helpers where
  getResizedWidthAndHeight cX cY _angle lastX lastY dir :=
    { deltaW := if dir.right then cX - lastX else 0
      deltaH := if dir.bottom then cY - lastY else 0 }
  getPercentageFromPixels a px :=
    match a with
    | Axis.x => px / 800 * 100
    | Axis.y => px / 600 * 100
  getPixelsFromPercentage a pc :=
    match a with
    | Axis.x => pc * 800 / 100
    | Axis.y => pc * 600 / 100
  getBlockPositioning w h _rad := { left := w / 2, top := h / 2 }
  getRadianFromDeg d := d / 57

/-- A DOM in which every element starts with style top/left 10%,
size 180×100, and rendered size 300×200. -/
def sampleDom : Dom where
  style _ := { top := 10, left := 10, width := 180, height := 100 }
  client _ := { clientWidth := 300, clientHeight := 200 }

/-- A text content element of natural size 200×10. -/
def sampleText : TextElem := { scrollWidth := 200, scrollHeight := 10 }

/-- A text block, auto-fit off, base size 180×100. -/
def textProps : Props :=
  { angle := 0, blockName := "amp/amp-story-text", ampFitText := false
    minWidth := 20, minHeight := 20, width := 180, height := 100 }

/-- An image block, base size 150×90. -/
def imageProps : Props :=
  { angle := 0, blockName := "core/image", ampFitText := false
    minWidth := 20, minHeight := 20, width := 150, height := 90 }

/-- A block that is neither an image nor text-bearing. -/
def videoProps : Props :=
  { angle := 0, blockName := "core/video", ampFitText := false
    minWidth := 50, minHeight := 50, width := 100, height := 100 }

/-- A rotated non-image, non-text block. -/
def rotProps : Props :=
  { angle := 30, blockName := "core/video", ampFitText := false
    minWidth := 20, minHeight := 20, width := 100, height := 50 }

/-- Gesture start on the text block at pointer (100,100), block
element 0, resolved text element `sampleText`. -/
def textStart : StartEvent :=
  { clientX := 100, clientY := 100, blockElemId := 0, imageWrapperId := none
    textElemFound := some sampleText }

/-- Module state after the text-block gesture start. -/
def mText : Mod := onResizeStart textProps textStart initialMod sampleDom

/-- A move to pointer (70,100) on container element 1, dragging the
right/bottom handles: requests a width 30px smaller. -/
def shrinkMove : MoveEvent :=
  { clientX := 70, clientY := 100, elemId := 1, direction := { right := true, bottom := true } }

/-- Gesture start on the non-text, non-image block. -/
def videoStart : StartEvent :=
  { clientX := 100, clientY := 100, blockElemId := 0, imageWrapperId := none
    textElemFound := none }

/-- Module state after the video-block gesture start. -/
def mVideo : Mod := onResizeStart videoProps videoStart initialMod sampleDom

/-- A move to pointer (20,100): requests a width 80px smaller. -/
def bigShrinkMove : MoveEvent :=
  { clientX := 20, clientY := 100, elemId := 1, direction := { right := true, bottom := true } }

/-- Gesture start on the image block (element 2, wrapper 3). -/
def imageStart : StartEvent :=
  { clientX := 100, clientY := 100, blockElemId := 2, imageWrapperId := some 3
    textElemFound := none }

/-- Image gesture started directly after the text gesture: the stale
`textElement` of `mText` is retained. -/
def mStale : Mod := onResizeStart imageProps imageStart mText sampleDom

/-- The same image gesture started from a pristine module state. -/
def mFresh : Mod := onResizeStart imageProps imageStart initialMod sampleDom

/-- A stop event at the unchanged pointer (zero delta). -/
def stopStill : MoveEvent :=
  { clientX := 100, clientY := 100, elemId := 2, direction := { right := true, bottom := true } }

/-- Two further gesture starts, for the nested-start run. -/
def startA : StartEvent :=
  { clientX := 3, clientY := 4, blockElemId := 0, imageWrapperId := none, textElemFound := none }

def startB : StartEvent :=
  { clientX := 7, clientY := 8, blockElemId := 5, imageWrapperId := none, textElemFound := none }

/-! ## C1 -/

/-- C1 counterexample: a text-block gesture (overflow target present,
auto-fit off) whose move requests applied width 150, below the
content's natural width 200.  The claim says the move is a no-op with
no preview emitted; in the source `onResize` performs no overflow
check, and the preview width 150 is written to the container element
(previous value 180). -/
theorem C1_counterexample :
    mText.textElement = some sampleText ∧
    textProps.ampFitText = false ∧
    (appliedSize sampleHelpers textProps shrinkMove mText
        (whNorm textProps mText sampleDom.client (180, 100))).1 = 150 ∧
    sampleText.scrollWidth = 200 ∧
    ((onResize sampleHelpers textProps shrinkMove mText (180, 100) sampleDom).2.style 1).width
      = 150 ∧
    (sampleDom.style 1).width = 180 := by
  norm_num [mText, onResizeStart, textProps, textStart, shrinkMove, isImage, isBlockWithText,
    BLOCKS_WITH_TEXT_SETTINGS, initialMod, sampleDom, sampleText, onResize, whNorm, appliedSize,
    gestureDelta, sampleHelpers, Dom.setSize, Dom.setTopLeft, blockId]

/-- C1 amended: the move handler applies no overflow clamp at all —
even when the overflow target is present, auto-fit is off and the
applied size is below the content's natural size, the preview size is
emitted to the container element; the overflow check is instead
applied only at gesture end. -/
theorem C1_theorem (H : Helpers) (p : Props) (ev : MoveEvent) (m : Mod) (wh : ℚ × ℚ)
    (dom : Dom) (te : TextElem) (hte : m.textElement = some te) (hfit : p.ampFitText = false)
    (hlt : (appliedSize H p ev m (whNorm p m dom.client wh)).1 < te.scrollWidth ∨
      (appliedSize H p ev m (whNorm p m dom.client wh)).2 < te.scrollHeight) :
    (((onResize H p ev m wh dom).2).style ev.elemId).width
      = (appliedSize H p ev m (whNorm p m dom.client wh)).1 ∧
    (((onResize H p ev m wh dom).2).style ev.elemId).height
      = (appliedSize H p ev m (whNorm p m dom.client wh)).2 :=
  onResize_size H p ev m wh dom

theorem C1_witness :
    mText.textElement = some sampleText ∧
    (appliedSize sampleHelpers textProps shrinkMove mText
        (whNorm textProps mText sampleDom.client (180, 100))).1 < sampleText.scrollWidth ∧
    (((onResize sampleHelpers textProps shrinkMove mText (180, 100) sampleDom).2).style
        shrinkMove.elemId).width
      = (appliedSize sampleHelpers textProps shrinkMove mText
          (whNorm textProps mText sampleDom.client (180, 100))).1 := by
  have h1 : mText.textElement = some sampleText := by
    norm_num [mText, onResizeStart, textProps, textStart, isImage, isBlockWithText,
      BLOCKS_WITH_TEXT_SETTINGS, initialMod]
  have h2 : (appliedSize sampleHelpers textProps shrinkMove mText
      (whNorm textProps mText sampleDom.client (180, 100))).1 < sampleText.scrollWidth := by
    norm_num [mText, onResizeStart, textProps, textStart, shrinkMove, isImage, isBlockWithText,
      BLOCKS_WITH_TEXT_SETTINGS, initialMod, sampleDom, sampleText, whNorm, appliedSize,
      gestureDelta, sampleHelpers, blockId]
  exact ⟨h1, h2,
    (C1_theorem sampleHelpers textProps shrinkMove mText (180, 100) sampleDom sampleText h1 rfl
      (Or.inl h2)).1⟩

/-! ## C2 -/

/-- C2 counterexample: at gesture end of the same text-block run the
delta requests applied width 150, below the natural width 200;
`onResizeStop` applies the overflow check as a final veto and emits
nothing, while the claim says the overflow clamp is never a final
veto and the size is committed. -/
theorem C2_counterexample :
    mText.textElement = some sampleText ∧
    (180 : ℚ) + (gestureDelta sampleHelpers textProps shrinkMove.clientX shrinkMove.clientY mText
        shrinkMove.direction).deltaW = 150 ∧
    sampleText.scrollWidth = 200 ∧
    onResizeStop sampleHelpers textProps shrinkMove mText (180, 100) sampleDom = none := by
  norm_num [mText, onResizeStart, textProps, textStart, shrinkMove, isImage, isBlockWithText,
    BLOCKS_WITH_TEXT_SETTINGS, initialMod, sampleDom, sampleText, onResizeStop, gestureDelta,
    sampleHelpers, blockId, jsTrunc]

/-- C2 amended: the gesture-end handler recomputes the delta by the
same `gestureDelta` computation as the move handler, and it DOES apply
the overflow clamp, as a final veto: if the applied size is below the
overflow target's natural size no result is emitted; otherwise the
recomputed size is committed. -/
theorem C2_theorem (H : Helpers) (p : Props) (ev : MoveEvent) (m : Mod) (wh : ℚ × ℚ)
    (dom : Dom) :
    (∀ te, m.textElement = some te →
      (wh.1 + (gestureDelta H p ev.clientX ev.clientY m ev.direction).deltaW < te.scrollWidth ∨
        wh.2 + (gestureDelta H p ev.clientX ev.clientY m ev.direction).deltaH < te.scrollHeight) →
      onResizeStop H p ev m wh dom = none) ∧
    ((∀ te, m.textElement = some te →
      ¬(wh.1 + (gestureDelta H p ev.clientX ev.clientY m ev.direction).deltaW < te.scrollWidth ∨
        wh.2 + (gestureDelta H p ev.clientX ev.clientY m ev.direction).deltaH < te.scrollHeight)) →
      onResizeStop H p ev m wh dom
        = some
          { width := jsTrunc (wh.1 + (gestureDelta H p ev.clientX ev.clientY m
              ev.direction).deltaW)
            height := jsTrunc (wh.2 + (gestureDelta H p ev.clientX ev.clientY m
              ev.direction).deltaH)
            positionTop := jsTrunc ((dom.style (blockId m)).top)
            positionLeft := jsTrunc ((dom.style (blockId m)).left) }) :=
  ⟨fun te hte hv => onResizeStop_veto H p ev m wh dom te hte hv,
    fun hok => onResizeStop_commits H p ev m wh dom hok⟩

theorem C2_witness :
    mText.textElement = some sampleText ∧
    (180 : ℚ) + (gestureDelta sampleHelpers textProps shrinkMove.clientX shrinkMove.clientY mText
        shrinkMove.direction).deltaW < sampleText.scrollWidth ∧
    onResizeStop sampleHelpers textProps shrinkMove mText (180, 100) sampleDom = none := by
  have h1 : mText.textElement = some sampleText := by
    norm_num [mText, onResizeStart, textProps, textStart, isImage, isBlockWithText,
      BLOCKS_WITH_TEXT_SETTINGS, initialMod]
  have h2 : (180 : ℚ) + (gestureDelta sampleHelpers textProps shrinkMove.clientX
      shrinkMove.clientY mText shrinkMove.direction).deltaW < sampleText.scrollWidth := by
    norm_num [mText, onResizeStart, textProps, textStart, shrinkMove, isImage, isBlockWithText,
      BLOCKS_WITH_TEXT_SETTINGS, initialMod, sampleText, gestureDelta, sampleHelpers]
  exact ⟨h1, h2,
    (C2_theorem sampleHelpers textProps shrinkMove mText (180, 100) sampleDom).1 sampleText h1
      (Or.inl h2)⟩

/-! ## C3 -/

/-- C3 counterexample: on the non-text block, a delta of −80 against
base width 100 with `minWidth` 50 yields a live preview clamped to 50,
but the committed result at gesture end applies no minimum clamp and
emits width 20, strictly below `minWidth`. -/
theorem C3_counterexample :
    videoProps.minWidth = 50 ∧
    ((onResize sampleHelpers videoProps bigShrinkMove mVideo (100, 100) sampleDom).2.style
        1).width = 50 ∧
    onResizeStop sampleHelpers videoProps bigShrinkMove mVideo (100, 100) sampleDom
      = some { width := 20, height := 100, positionTop := 10, positionLeft := 10 } ∧
    (20 : ℤ) < 50 := by
  norm_num [mVideo, onResizeStart, videoProps, videoStart, bigShrinkMove, isImage,
    isBlockWithText, BLOCKS_WITH_TEXT_SETTINGS, initialMod, sampleDom, onResize, onResizeStop,
    whNorm, appliedSize, gestureDelta, sampleHelpers, Dom.setSize, Dom.setTopLeft, blockId,
    jsTrunc]

/-- C3 amended: the minimum-size clamp
`applied = max(base + delta, minimum)` holds exactly for the live
preview on each move; the committed result at gesture end applies no
minimum clamp — it emits the truncated raw `base + delta`, which can
be below the minimum. -/
theorem C3_theorem (H : Helpers) (p : Props) (ev : MoveEvent) (m : Mod) (wh : ℚ × ℚ)
    (dom : Dom) :
    (((onResize H p ev m wh dom).2).style ev.elemId).width
      = max ((whNorm p m dom.client wh).1
          + (gestureDelta H p ev.clientX ev.clientY m ev.direction).deltaW) p.minWidth ∧
    (((onResize H p ev m wh dom).2).style ev.elemId).height
      = max ((whNorm p m dom.client wh).2
          + (gestureDelta H p ev.clientX ev.clientY m ev.direction).deltaH) p.minHeight ∧
    (m.textElement = none →
      onResizeStop H p ev m wh dom
        = some
          { width := jsTrunc (wh.1 + (gestureDelta H p ev.clientX ev.clientY m
              ev.direction).deltaW)
            height := jsTrunc (wh.2 + (gestureDelta H p ev.clientX ev.clientY m
              ev.direction).deltaH)
            positionTop := jsTrunc ((dom.style (blockId m)).top)
            positionLeft := jsTrunc ((dom.style (blockId m)).left) }) := by
  have hs := onResize_size H p ev m wh dom
  rw [appliedSize_eq_max] at hs
  refine ⟨hs.1, hs.2, fun hnone => onResizeStop_commits H p ev m wh dom ?_⟩
  intro te hte
  rw [hnone] at hte
  exact Option.noConfusion hte

theorem C3_witness :
    mVideo.textElement = none ∧
    ((onResize sampleHelpers videoProps bigShrinkMove mVideo (100, 100) sampleDom).2.style
        bigShrinkMove.elemId).width
      = max ((whNorm videoProps mVideo sampleDom.client (100, 100)).1
          + (gestureDelta sampleHelpers videoProps bigShrinkMove.clientX bigShrinkMove.clientY
              mVideo bigShrinkMove.direction).deltaW) videoProps.minWidth ∧
    onResizeStop sampleHelpers videoProps bigShrinkMove mVideo (100, 100) sampleDom
      = some
        { width := jsTrunc ((100 : ℚ) + (gestureDelta sampleHelpers videoProps
            bigShrinkMove.clientX bigShrinkMove.clientY mVideo bigShrinkMove.direction).deltaW)
          height := jsTrunc ((100 : ℚ) + (gestureDelta sampleHelpers videoProps
            bigShrinkMove.clientX bigShrinkMove.clientY mVideo bigShrinkMove.direction).deltaH)
          positionTop := jsTrunc ((sampleDom.style (blockId mVideo)).top)
          positionLeft := jsTrunc ((sampleDom.style (blockId mVideo)).left) } := by
  have h0 : mVideo.textElement = none := by
    norm_num [mVideo, onResizeStart, videoProps, videoStart, isImage, isBlockWithText,
      BLOCKS_WITH_TEXT_SETTINGS, initialMod]
  exact ⟨h0,
    (C3_theorem sampleHelpers videoProps bigShrinkMove mVideo (100, 100) sampleDom).1,
    (C3_theorem sampleHelpers videoProps bigShrinkMove mVideo (100, 100) sampleDom).2.2 h0⟩

/-! ## C4 -/

/-- C4 counterexample: the gesture state is module-level and never
discarded.  After a text-block gesture start, a subsequent image-block
gesture start retains the stale `textElement`; the stale field changes
the second gesture's observable behaviour: its gesture end is vetoed
(applied width 150 below the stale text element's natural width 200),
while the identical gesture from a pristine state commits. -/
theorem C4_counterexample :
    mStale.textElement = some sampleText ∧
    mFresh.textElement = none ∧
    onResizeStop sampleHelpers imageProps stopStill mStale (150, 90) sampleDom = none ∧
    onResizeStop sampleHelpers imageProps stopStill mFresh (150, 90) sampleDom
      = some { width := 150, height := 90, positionTop := 10, positionLeft := 10 } := by
  simp [mStale, mFresh, mText, onResizeStart, imageProps, textProps, imageStart, textStart,
    stopStill, isImage, isBlockWithText, BLOCKS_WITH_TEXT_SETTINGS, initialMod, sampleDom,
    sampleText, onResizeStop, gestureDelta, sampleHelpers, blockId, jsTrunc]
  norm_num

/-- C4 amended: the session state is module-level and is not discarded
at gesture end; `textElement` and `imageWrapper` set during one
gesture persist into subsequent gestures — a new gesture start on a
block that is neither text-bearing (with auto-fit off) nor an image
leaves both stale fields in place, observable by the new gesture. -/
theorem C4_theorem (p : Props) (ev : StartEvent) (m : Mod) (dom : Dom)
    (h1 : isBlockWithText p = false) (h2 : isImage p = false) :
    (onResizeStart p ev m dom).textElement = m.textElement ∧
    (onResizeStart p ev m dom).imageWrapper = m.imageWrapper := by
  unfold onResizeStart
  simp [h1, h2]

theorem C4_witness :
    isBlockWithText videoProps = false ∧
    isImage videoProps = false ∧
    (onResizeStart videoProps videoStart mText sampleDom).textElement = mText.textElement ∧
    (onResizeStart videoProps videoStart mText sampleDom).imageWrapper = mText.imageWrapper := by
  have h1 : isBlockWithText videoProps = false := by decide
  have h2 : isImage videoProps = false := by decide
  have hc := C4_theorem videoProps videoStart mText sampleDom h1 h2
  exact ⟨h1, h2, hc.1, hc.2⟩

/-! ## C5 -/

/-- C5 counterexample: a second gesture start without an intervening
gesture end is accepted and silently overwrites the cached baseline
(the handler has no error outcome at all): after starting at pointer
(3,4) on element 0 and again at (7,8) on element 5, the module state
holds the second gesture's values. -/
theorem C5_counterexample :
    (onResizeStart videoProps startA initialMod sampleDom).lastSeenX = 3 ∧
    (onResizeStart videoProps startB (onResizeStart videoProps startA initialMod sampleDom)
        sampleDom).lastSeenX = 7 ∧
    (onResizeStart videoProps startB (onResizeStart videoProps startA initialMod sampleDom)
        sampleDom).blockElement = some 5 := by
  norm_num [onResizeStart, videoProps, startA, startB, isImage, isBlockWithText,
    BLOCKS_WITH_TEXT_SETTINGS, initialMod, sampleDom]

/-- C5 amended: `onResizeStart` performs no state check: whatever the
prior module state — in particular one of a still-active gesture — it
is accepted and silently overwrites the cached pointer position and
block element with the new gesture's context (its codomain has no
error alternative, so no InvalidState is ever raised). -/
theorem C5_theorem (p : Props) (ev : StartEvent) (m : Mod) (dom : Dom) :
    (onResizeStart p ev m dom).lastSeenX = ev.clientX ∧
    (onResizeStart p ev m dom).lastSeenY = ev.clientY ∧
    (onResizeStart p ev m dom).blockElement = some ev.blockElemId ∧
    (onResizeStart p ev m dom).blockElementTop = (dom.style ev.blockElemId).top ∧
    (onResizeStart p ev m dom).blockElementLeft = (dom.style ev.blockElemId).left := by
  unfold onResizeStart
  dsimp only
  repeat' split
  all_goals simp

/-! ## C6 -/

/-- With zero rotation, no move of a gesture touches any element's
style top/left. -/
theorem runMoves_pos_zero (H : Helpers) (p : Props) (m : Mod) (h : p.angle = 0)
    (evs : List MoveEvent) :
    ∀ (s : (ℚ × ℚ) × Dom) (j : Nat),
      (((runMoves H p m evs s).2).style j).top = ((s.2).style j).top ∧
      (((runMoves H p m evs s).2).style j).left = ((s.2).style j).left := by
  induction evs with
  | nil => intro s j; exact ⟨rfl, rfl⟩
  | cons e t ih =>
    intro s j
    rw [runMoves_cons]
    have h1 := ih (onResize H p e m s.1 s.2) j
    have h2 := onResize_pos_zero H p e m s.1 s.2 h j
    exact ⟨h1.1.trans h2.1, h1.2.trans h2.2⟩

/-- C6: for a gesture at angle 0, the element's top/left position is
never modified — no move of the gesture writes any element's style
top/left, and any committed result at gesture end carries exactly the
(truncated) gesture-start position; only width and height are
written. -/
theorem C6_theorem (H : Helpers) (p : Props) (m : Mod) (evs : List MoveEvent)
    (s : (ℚ × ℚ) × Dom) (h : p.angle = 0) (j : Nat) (ev : MoveEvent) (c : Commit)
    (hstop : onResizeStop H p ev m (runMoves H p m evs s).1 (runMoves H p m evs s).2 = some c) :
    (((runMoves H p m evs s).2).style j).top = ((s.2).style j).top ∧
    (((runMoves H p m evs s).2).style j).left = ((s.2).style j).left ∧
    c.positionTop = jsTrunc (((s.2).style (blockId m)).top) ∧
    c.positionLeft = jsTrunc (((s.2).style (blockId m)).left) := by
  have hp := runMoves_pos_zero H p m h evs s
  have hc := onResizeStop_some H p ev m _ _ c hstop
  refine ⟨(hp j).1, (hp j).2, ?_, ?_⟩
  · rw [hc]
    exact congrArg jsTrunc (hp (blockId m)).1
  · rw [hc]
    exact congrArg jsTrunc (hp (blockId m)).2

theorem C6_witness :
    videoProps.angle = 0 ∧
    onResizeStop sampleHelpers videoProps bigShrinkMove mVideo
        (runMoves sampleHelpers videoProps mVideo [bigShrinkMove] ((100, 100), sampleDom)).1
        (runMoves sampleHelpers videoProps mVideo [bigShrinkMove] ((100, 100), sampleDom)).2
      = some { width := 20, height := 100, positionTop := 10, positionLeft := 10 } ∧
    (((runMoves sampleHelpers videoProps mVideo [bigShrinkMove]
        ((100, 100), sampleDom)).2).style 0).top = (sampleDom.style 0).top ∧
    (((runMoves sampleHelpers videoProps mVideo [bigShrinkMove]
        ((100, 100), sampleDom)).2).style 0).left = (sampleDom.style 0).left ∧
    (10 : ℤ) = jsTrunc ((sampleDom.style (blockId mVideo)).top) ∧
    (10 : ℤ) = jsTrunc ((sampleDom.style (blockId mVideo)).left) := by
  have ha : videoProps.angle = 0 := rfl
  have hstop : onResizeStop sampleHelpers videoProps bigShrinkMove mVideo
      (runMoves sampleHelpers videoProps mVideo [bigShrinkMove] ((100, 100), sampleDom)).1
      (runMoves sampleHelpers videoProps mVideo [bigShrinkMove] ((100, 100), sampleDom)).2
      = some { width := 20, height := 100, positionTop := 10, positionLeft := 10 } := by
    simp [runMoves, List.foldl, onResize, onResizeStop, whNorm, appliedSize, gestureDelta,
      sampleHelpers, mVideo, onResizeStart, videoProps, videoStart, bigShrinkMove, isImage,
      isBlockWithText, BLOCKS_WITH_TEXT_SETTINGS, initialMod, sampleDom, Dom.setSize,
      Dom.setTopLeft, blockId, jsTrunc]
  have hc := C6_theorem sampleHelpers videoProps mVideo [bigShrinkMove] ((100, 100), sampleDom)
    ha 0 bigShrinkMove _ hstop
  exact ⟨ha, hstop, hc.1, hc.2.1, hc.2.2.1, hc.2.2.2⟩

/-! ## C7 -/

/-- C7: on a move with nonzero angle and applied height below 60, the
horizontal component of the anchored-position correction (the
difference of the two `getBlockPositioning` results) is scaled by
exactly appliedHeight/60 relative to the unscaled formula, while the
vertical component is unscaled. -/
theorem C7_theorem (H : Helpers) (p : Props) (ev : MoveEvent) (m : Mod) (wh : ℚ × ℚ)
    (dom : Dom) (hangle : p.angle ≠ 0)
    (hlow : (appliedSize H p ev m (whNorm p m dom.client wh)).2 < 60) :
    (((onResize H p ev m wh dom).2).style (blockId m)).left
      = H.getPercentageFromPixels Axis.x
          (H.getPixelsFromPercentage Axis.x ((jsTrunc m.blockElementLeft : ℤ) : ℚ)
            - ((H.getBlockPositioning (appliedSize H p ev m (whNorm p m dom.client wh)).1
                  (appliedSize H p ev m (whNorm p m dom.client wh)).2
                  (H.getRadianFromDeg p.angle)).left
                - (H.getBlockPositioning (whNorm p m dom.client wh).1
                    (whNorm p m dom.client wh).2 (H.getRadianFromDeg p.angle)).left)
              * ((appliedSize H p ev m (whNorm p m dom.client wh)).2 / 60)) ∧
    (((onResize H p ev m wh dom).2).style (blockId m)).top
      = H.getPercentageFromPixels Axis.y
          (H.getPixelsFromPercentage Axis.y ((jsTrunc m.blockElementTop : ℤ) : ℚ)
            + ((H.getBlockPositioning (appliedSize H p ev m (whNorm p m dom.client wh)).1
                  (appliedSize H p ev m (whNorm p m dom.client wh)).2
                  (H.getRadianFromDeg p.angle)).top
                - (H.getBlockPositioning (whNorm p m dom.client wh).1
                    (whNorm p m dom.client wh).2 (H.getRadianFromDeg p.angle)).top)) := by
  have key : ∀ x h : ℚ, x / (60 / h) = x * (h / 60) := by
    intro x h
    rw [div_div_eq_mul_div, mul_div_assoc]
  have hp := onResize_pos H p ev m wh dom hangle
  constructor
  · rw [hp.2]
    unfold movePosition
    dsimp only
    rw [if_pos hlow, key]
  · rw [hp.1]
    rfl

/-! ## C8 -/

/-- C8: when the gesture-end veto does not fire, the committed result
consists of integers obtained by truncation toward zero (floor for
nonnegative values, ceiling for negative ones — never rounding to the
nearest integer), with position read from the block element's live
style at gesture end. -/
theorem C8_theorem (H : Helpers) (p : Props) (ev : MoveEvent) (m : Mod) (wh : ℚ × ℚ)
    (dom : Dom)
    (hok : ∀ te, m.textElement = some te →
      ¬(wh.1 + (gestureDelta H p ev.clientX ev.clientY m ev.direction).deltaW < te.scrollWidth ∨
        wh.2 + (gestureDelta H p ev.clientX ev.clientY m ev.direction).deltaH < te.scrollHeight)) :
    onResizeStop H p ev m wh dom
      = some
        { width := jsTrunc (wh.1 + (gestureDelta H p ev.clientX ev.clientY m ev.direction).deltaW)
          height := jsTrunc (wh.2 + (gestureDelta H p ev.clientX ev.clientY m
            ev.direction).deltaH)
          positionTop := jsTrunc ((dom.style (blockId m)).top)
          positionLeft := jsTrunc ((dom.style (blockId m)).left) } ∧
    (∀ q : ℚ, 0 ≤ q → jsTrunc q = ⌊q⌋ ∧ (jsTrunc q : ℚ) ≤ q ∧ q - 1 < (jsTrunc q : ℚ)) ∧
    (∀ q : ℚ, q < 0 → jsTrunc q = ⌈q⌉ ∧ q ≤ (jsTrunc q : ℚ) ∧ (jsTrunc q : ℚ) < q + 1) := by
  refine ⟨onResizeStop_commits H p ev m wh dom hok, ?_, ?_⟩
  · intro q hq
    unfold jsTrunc
    rw [if_pos hq]
    exact ⟨rfl, Int.floor_le q, Int.sub_one_lt_floor q⟩
  · intro q hq
    unfold jsTrunc
    rw [if_neg (not_le.mpr hq)]
    exact ⟨rfl, Int.le_ceil q, Int.ceil_lt_add_one q⟩

theorem C8_witness :
    mVideo.textElement = none ∧
    onResizeStop sampleHelpers videoProps bigShrinkMove mVideo (100, 100) sampleDom
      = some
        { width := jsTrunc ((100 : ℚ) + (gestureDelta sampleHelpers videoProps
            bigShrinkMove.clientX bigShrinkMove.clientY mVideo bigShrinkMove.direction).deltaW)
          height := jsTrunc ((100 : ℚ) + (gestureDelta sampleHelpers videoProps
            bigShrinkMove.clientX bigShrinkMove.clientY mVideo bigShrinkMove.direction).deltaH)
          positionTop := jsTrunc ((sampleDom.style (blockId mVideo)).top)
          positionLeft := jsTrunc ((sampleDom.style (blockId mVideo)).left) } ∧
    jsTrunc (20.7 : ℚ) = 20 ∧ jsTrunc (-3.7 : ℚ) = -3 := by
  have h0 : mVideo.textElement = none := by
    norm_num [mVideo, onResizeStart, videoProps, videoStart, isImage, isBlockWithText,
      BLOCKS_WITH_TEXT_SETTINGS, initialMod]
  have hok : ∀ te, mVideo.textElement = some te →
      ¬((100 : ℚ) + (gestureDelta sampleHelpers videoProps bigShrinkMove.clientX
          bigShrinkMove.clientY mVideo bigShrinkMove.direction).deltaW < te.scrollWidth ∨
        (100 : ℚ) + (gestureDelta sampleHelpers videoProps bigShrinkMove.clientX
          bigShrinkMove.clientY mVideo bigShrinkMove.direction).deltaH < te.scrollHeight) := by
    intro te hte
    rw [h0] at hte
    exact Option.noConfusion hte
  have hc := C8_theorem sampleHelpers videoProps bigShrinkMove mVideo (100, 100) sampleDom hok
  refine ⟨h0, hc.1, ?_, ?_⟩
  · rw [(hc.2.1 (20.7 : ℚ) (by norm_num)).1]
    norm_num [Int.floor_eq_iff]
  · rw [(hc.2.2 (-3.7 : ℚ) (by norm_num)).1]
    rw [show ((-3.7 : ℚ)) = -(37/10) from by norm_num, Int.ceil_neg]
    norm_num [Int.floor_eq_iff]

/-! ## C9 -/

/-- C9: for a move on an image element whose stored width and height
are both zero, the baseline width/height for delta application is the
block element's rendered (client) size, not the stored attributes. -/
theorem C9_theorem (H : Helpers) (p : Props) (ev : MoveEvent) (m : Mod) (wh : ℚ × ℚ)
    (dom : Dom) (himg : isImage p = true) (hw : wh.1 = 0) (hh : wh.2 = 0) :
    (onResize H p ev m wh dom).1
      = ((dom.client (blockId m)).clientWidth, (dom.client (blockId m)).clientHeight) ∧
    (((onResize H p ev m wh dom).2).style ev.elemId).width
      = (appliedSize H p ev m
          ((dom.client (blockId m)).clientWidth, (dom.client (blockId m)).clientHeight)).1 ∧
    (((onResize H p ev m wh dom).2).style ev.elemId).height
      = (appliedSize H p ev m
          ((dom.client (blockId m)).clientWidth, (dom.client (blockId m)).clientHeight)).2 := by
  have hn : whNorm p m dom.client wh
      = ((dom.client (blockId m)).clientWidth, (dom.client (blockId m)).clientHeight) := by
    unfold whNorm
    rw [if_pos (by simp [himg, hw, hh])]
  have hs := onResize_size H p ev m wh dom
  rw [hn] at hs
  exact ⟨by rw [onResize_fst, hn], hs.1, hs.2⟩

theorem C9_witness :
    isImage imageProps = true ∧
    ((0 : ℚ), (0 : ℚ)).1 = 0 ∧
    (onResize sampleHelpers imageProps stopStill mFresh (0, 0) sampleDom).1
      = ((sampleDom.client (blockId mFresh)).clientWidth,
         (sampleDom.client (blockId mFresh)).clientHeight) ∧
    ((onResize sampleHelpers imageProps stopStill mFresh (0, 0) sampleDom).2.style
        stopStill.elemId).width
      = (appliedSize sampleHelpers imageProps stopStill mFresh
          ((sampleDom.client (blockId mFresh)).clientWidth,
           (sampleDom.client (blockId mFresh)).clientHeight)).1 := by
  have himg : isImage imageProps = true := by decide
  have hc := C9_theorem sampleHelpers imageProps stopStill mFresh (0, 0) sampleDom himg rfl rfl
  exact ⟨himg, rfl, hc.1, hc.2.1⟩

/-! ## C10 -/

/-- The position written by the final move of a gesture is determined
by the gesture-start state and that move's event alone. -/
theorem runMoves_last_pos (H : Helpers) (p : Props) (m : Mod) (wh : ℚ × ℚ) (dom : Dom)
    (evs : List MoveEvent) (ev : MoveEvent) (h : p.angle ≠ 0) :
    (((runMoves H p m (evs ++ [ev]) (wh, dom)).2).style (blockId m)).top
      = (movePosition H p ev m (whNorm p m dom.client wh)).1 ∧
    (((runMoves H p m (evs ++ [ev]) (wh, dom)).2).style (blockId m)).left
      = (movePosition H p ev m (whNorm p m dom.client wh)).2 := by
  rw [runMoves_append]
  have hq : runMoves H p m [ev] (runMoves H p m evs (wh, dom))
      = onResize H p ev m (runMoves H p m evs (wh, dom)).1
          (runMoves H p m evs (wh, dom)).2 := rfl
  rw [hq]
  have hc := runMoves_client H p m evs (wh, dom)
  have hw := runMoves_whNorm H p m evs (wh, dom)
  have hp := onResize_pos H p ev m (runMoves H p m evs (wh, dom)).1
    (runMoves H p m evs (wh, dom)).2 h
  rw [hc] at hp
  rw [hw] at hp
  exact hp

/-- C10: for a gesture with nonzero angle, the preview position
written by a move is a function only of the gesture-start state and
the current pointer event — two move histories of the same gesture
ending in the same event leave the block element at the same
position, regardless of the intermediate moves. -/
theorem C10_theorem (H : Helpers) (p : Props) (m : Mod) (wh : ℚ × ℚ) (dom : Dom)
    (evs1 evs2 : List MoveEvent) (ev : MoveEvent) (h : p.angle ≠ 0) :
    (((runMoves H p m (evs1 ++ [ev]) (wh, dom)).2).style (blockId m)).top
      = (((runMoves H p m (evs2 ++ [ev]) (wh, dom)).2).style (blockId m)).top ∧
    (((runMoves H p m (evs1 ++ [ev]) (wh, dom)).2).style (blockId m)).left
      = (((runMoves H p m (evs2 ++ [ev]) (wh, dom)).2).style (blockId m)).left := by
  have h1 := runMoves_last_pos H p m wh dom evs1 ev h
  have h2 := runMoves_last_pos H p m wh dom evs2 ev h
  exact ⟨h1.1.trans h2.1.symm, h1.2.trans h2.2.symm⟩

/-- Gesture state for the rotated block. -/
def mRot : Mod := onResizeStart rotProps videoStart initialMod sampleDom

/-- The final move of the rotated gesture, and an alternative
intermediate move. -/
def rotMove : MoveEvent :=
  { clientX := 110, clientY := 90, elemId := 1, direction := { right := true, bottom := true } }

def rotMidMove : MoveEvent :=
  { clientX := 105, clientY := 95, elemId := 1, direction := { right := true, bottom := true } }

theorem C10_witness :
    rotProps.angle ≠ 0 ∧
    (((runMoves sampleHelpers rotProps mRot ([] ++ [rotMove])
        ((100, 50), sampleDom)).2).style (blockId mRot)).top
      = (((runMoves sampleHelpers rotProps mRot ([rotMidMove] ++ [rotMove])
        ((100, 50), sampleDom)).2).style (blockId mRot)).top ∧
    (((runMoves sampleHelpers rotProps mRot ([] ++ [rotMove])
        ((100, 50), sampleDom)).2).style (blockId mRot)).left
      = (((runMoves sampleHelpers rotProps mRot ([rotMidMove] ++ [rotMove])
        ((100, 50), sampleDom)).2).style (blockId mRot)).left := by
  have ha : rotProps.angle ≠ 0 := by norm_num [rotProps]
  have hc := C10_theorem sampleHelpers rotProps mRot (100, 50) sampleDom [] [rotMidMove]
    rotMove ha
  exact ⟨ha, hc.1, hc.2⟩

theorem C7_witness :
    rotProps.angle ≠ 0 ∧
    (appliedSize sampleHelpers rotProps rotMove mRot
        (whNorm rotProps mRot sampleDom.client (100, 50))).2 < 60 ∧
    (((onResize sampleHelpers rotProps rotMove mRot (100, 50) sampleDom).2).style
        (blockId mRot)).left
      = sampleHelpers.getPercentageFromPixels Axis.x
          (sampleHelpers.getPixelsFromPercentage Axis.x
              ((jsTrunc mRot.blockElementLeft : ℤ) : ℚ)
            - ((sampleHelpers.getBlockPositioning
                  (appliedSize sampleHelpers rotProps rotMove mRot
                    (whNorm rotProps mRot sampleDom.client (100, 50))).1
                  (appliedSize sampleHelpers rotProps rotMove mRot
                    (whNorm rotProps mRot sampleDom.client (100, 50))).2
                  (sampleHelpers.getRadianFromDeg rotProps.angle)).left
                - (sampleHelpers.getBlockPositioning
                    (whNorm rotProps mRot sampleDom.client (100, 50)).1
                    (whNorm rotProps mRot sampleDom.client (100, 50)).2
                    (sampleHelpers.getRadianFromDeg rotProps.angle)).left)
              * ((appliedSize sampleHelpers rotProps rotMove mRot
                  (whNorm rotProps mRot sampleDom.client (100, 50))).2 / 60)) := by
  have ha : rotProps.angle ≠ 0 := by norm_num [rotProps]
  have hlow : (appliedSize sampleHelpers rotProps rotMove mRot
      (whNorm rotProps mRot sampleDom.client (100, 50))).2 < 60 := by
    norm_num [appliedSize, whNorm, gestureDelta, sampleHelpers, mRot, onResizeStart, rotProps,
      videoStart, isImage, isBlockWithText, BLOCKS_WITH_TEXT_SETTINGS, initialMod, sampleDom,
      rotMove, blockId]
  exact ⟨ha, hlow,
    (C7_theorem sampleHelpers rotProps rotMove mRot (100, 50) sampleDom ha hlow).1⟩

end AmpResizableBox
